import Mathlib

/-!
Shallow embedding of the TrustBridge backend server (Express + Supabase + JWT).

The embedding follows the current server source file: startup environment
validation, the authenticate middleware, the multer upload policy layer, and
the three transaction endpoints POST /upload-proof, POST /generate-confirmation
and GET /confirm.

Modelling conventions:
- JS strings are Lean Strings; the https scheme check on the base URL is
  modelled on the character list of the string.
- Timestamps are naturals, in milliseconds since the epoch. The jsonwebtoken
  library measures the embedded expiry in seconds; we keep a single millisecond
  clock for both the embedded expiry and the stored expiry, which preserves the
  ordering of all comparisons.
- A signed JWT is modelled symbolically as its payload, its embedded absolute
  expiry, and the secret it was signed with (standing for the HMAC-SHA256
  signature). Signature verification succeeds exactly when the verifying secret
  equals the signing secret, following the ideal-MAC symbolic model.
- SHA-256 is modelled as an injective constructor (collision freeness of the
  symbolic model); the stored commitment is a Digest value.
- Each Supabase call is a pure function of a store snapshot; handlers that make
  several store calls take one snapshot per call, so that interleavings with
  other requests and store-side faults are expressible. The sequential
  single-request run passes the same snapshot everywhere.
- Supabase errors (store unavailable, or .single() matching no row) are the err
  case of DbSingle / DbWrite.
-/

/-- Payload signed into a confirmation JWT: transaction id and random nonce. -/
structure TokenPayload where
  transaction_id : String
  nonce : String
deriving DecidableEq

/-- A signed confirmation JWT, symbolically: payload, embedded absolute expiry
in milliseconds, and the signing secret standing for the HS256 signature. -/
structure SignedToken where
  payload : TokenPayload
  exp : Nat
  secret : String
deriving DecidableEq

/-- SHA-256 commitment of the serialized signed token, symbolic and injective. -/
inductive Digest : Type where
  | sha256OfToken : SignedToken → Digest
deriving DecidableEq

/-- One row of the transactions table, restricted to the columns the server
reads or writes. -/
structure Txn where
  transaction_id : String
  user_id : String
  status : String
  confirmation_token_hash : Option Digest
  confirmation_expires_at : Option Nat
  confirmation_used : Bool
  proof_files_urls : Option String
deriving DecidableEq

/-- The transactions table. -/
def Store : Type := List Txn

instance : DecidableEq Store := by
  unfold Store
  infer_instance

/-- Result of a .select().eq(...).single() call: err covers both a store fault
and the no-matching-row PostgREST error that .single() produces. -/
inductive DbSingle (α : Type) where
  | err : DbSingle α
  | ok : α → DbSingle α
deriving DecidableEq

/-- Result of a .update() call: err carries the store error message. -/
inductive DbWrite where
  | err : String → DbWrite
  | ok : DbWrite
deriving DecidableEq

/-- Lookup .eq("transaction_id", tid).single() on a store snapshot. -/
def findByTid (s : Store) (tid : String) : Option Txn :=
  s.find? (fun t => decide (t.transaction_id = tid))

/-- Lookup .eq("transaction_id", tid).eq("confirmation_token_hash", h).single(). -/
def findByTidHash (s : Store) (tid : String) (h : Digest) : Option Txn :=
  s.find? (fun t => decide (t.transaction_id = tid ∧ t.confirmation_token_hash = some h))

/-- Supabase .update(f).eq-predicate p: apply f to every row satisfying p. -/
def updateWhere (s : Store) (p : Txn → Bool) (f : Txn → Txn) : Store :=
  s.map (fun t => if p t then f t else t)

/-- Number of rows an update touches, as reported by .select() after .update(). -/
def countWhere (s : Store) (p : Txn → Bool) : Nat :=
  (s.filter p).length

/-- Convert an optional row to the result of .single(), which errors when no
row matches. -/
def dbSingleOf : Option Txn → DbSingle Txn
  | none => DbSingle.err
  | some t => DbSingle.ok t

/-- The read the /confirm handler performs against a store snapshot. -/
def readSingle (s : Store) (tid : String) (h : Digest) : DbSingle Txn :=
  dbSingleOf (findByTidHash s tid h)

/-- JS truthiness of an optional env var or body field: undefined and the empty
string are falsy. -/
def envPresent : Option String → Bool
  | none => false
  | some v => decide (v ≠ "")

/-- JS String.prototype.startsWith, modelled on the character list. -/
def jsStartsWith (s p : String) : Bool :=
  p.data.isPrefixOf s.data

/-- Process environment read at startup. -/
structure ProcEnv where
  SUPABASE_URL : Option String
  SUPABASE_SERVICE_ROLE_KEY : Option String
  JWT_SECRET : Option String
  CONFIRM_BASE_URL : Option String
deriving DecidableEq

/-- Startup validation: the process reaches app.listen exactly when every
required env var is present and the confirmation base URL starts with the
https scheme; otherwise it runs process.exit(1) before serving anything. -/
def startupOk (e : ProcEnv) : Bool :=
  envPresent e.SUPABASE_URL &&
  envPresent e.SUPABASE_SERVICE_ROLE_KEY &&
  envPresent e.JWT_SECRET &&
  envPresent e.CONFIRM_BASE_URL &&
  jsStartsWith (e.CONFIRM_BASE_URL.getD "") "https://"

/-- Stand-in for the compact JWS serialization of a signed token; used only as
the opaque query-string payload of the confirmation link. -/
def encodeToken (t : SignedToken) : String :=
  t.payload.transaction_id ++ "." ++ t.payload.nonce ++ "." ++ toString t.exp

/-- Confirmation URL built by the mint handler from the configured base URL. -/
def confirmationLink (baseUrl tok : String) : String :=
  baseUrl ++ "/confirm?token=" ++ tok

/-- Fixed token validity window: 72 hours in milliseconds. -/
def VALIDITY_MS : Nat := 72 * 60 * 60 * 1000

/-- Multer size ceiling: 5 MiB. -/
def MAX_FILE_SIZE : Nat := 5 * 1024 * 1024

/-- Fixed MIME allowlist of the upload policy layer. -/
def ALLOWED_MIME_TYPES : List String := ["application/pdf", "image/jpeg", "image/png"]

/-- Outcome of the external identity verifier for the presented bearer token. -/
inductive VerifierResult where
  | ok : String → VerifierResult
  | rejected : VerifierResult
  | fault : VerifierResult
deriving DecidableEq

/-- Result of the authenticate middleware: either a principal id attached to
the request, or an early HTTP response (status, error message). -/
inductive AuthOutcome where
  | principal : String → AuthOutcome
  | respond : Nat → String → AuthOutcome
deriving DecidableEq

/-- The authenticate middleware. The first argument is the bearer token already
split out of the Authorization header (absent when the header is missing or has
no second word); the second is what supabase.auth.getUser does with it. -/
def authenticate (bearer : Option String) (vr : VerifierResult) : AuthOutcome :=
  match bearer with
  | none => AuthOutcome.respond 401 "Authorization token required"
  | some _ =>
    match vr with
    | VerifierResult.fault => AuthOutcome.respond 500 "Authentication failed"
    | VerifierResult.rejected => AuthOutcome.respond 401 "Unauthorized"
    | VerifierResult.ok uid => AuthOutcome.principal uid

/-- The token minted by jwt.sign for a transaction id, fresh nonce and mint
time, with expiresIn 72h and the process-wide secret. -/
def mintToken (secret tid nonce : String) (now : Nat) : SignedToken :=
  { payload := { transaction_id := tid, nonce := nonce }
    exp := now + VALIDITY_MS
    secret := secret }

/-- Response of POST /generate-confirmation, mirroring res.json shapes. -/
structure GenConfResponse where
  status : Nat
  error : Option String
  confirmationLink : Option String
deriving DecidableEq

/-- Row payload of the .update() call in POST /generate-confirmation: the new
commitment, the new stored expiry, and the reset used flag. -/
def mintUpdate (secret tid nonce : String) (now : Nat) (t : Txn) : Txn :=
  { t with
    confirmation_token_hash := some (Digest.sha256OfToken (mintToken secret tid nonce now))
    confirmation_expires_at := some (now + VALIDITY_MS)
    confirmation_used := false }

/-- POST /generate-confirmation with one store snapshot per store call: the
lookup reads s1, the update writes s2, and the write itself may fault. -/
def generateConfirmation2 (secret baseUrl uid : String) (tid? : Option String)
    (nonce : String) (now : Nat) (write : DbWrite) (s1 s2 : Store) :
    GenConfResponse × Store :=
  match tid? with
  | none => (⟨400, some "transactionId required", none⟩, s2)
  | some tid =>
    if tid = "" then (⟨400, some "transactionId required", none⟩, s2)
    else
      match findByTid s1 tid with
      | none => (⟨404, some "Transaction not found", none⟩, s2)
      | some txn =>
        if txn.user_id ≠ uid then (⟨403, some "Forbidden", none⟩, s2)
        else
          match write with
          | DbWrite.err msg =>
            (⟨500, some ("Failed to store confirmation token: " ++ msg), none⟩, s2)
          | DbWrite.ok =>
            let s3 := updateWhere s2 (fun t => decide (t.transaction_id = tid))
              (mintUpdate secret tid nonce now)
            if countWhere s2 (fun t => decide (t.transaction_id = tid)) = 0 then
              (⟨404, some "Transaction not found for this user", none⟩, s3)
            else
              (⟨200, none,
                some (confirmationLink baseUrl (encodeToken (mintToken secret tid nonce now)))⟩, s3)

/-- POST /generate-confirmation as a single sequential request against one
store state, with a healthy store. -/
def generateConfirmation (secret baseUrl uid : String) (tid? : Option String)
    (nonce : String) (now : Nat) (s : Store) : GenConfResponse × Store :=
  generateConfirmation2 secret baseUrl uid tid? nonce now DbWrite.ok s s

/-- Token query parameter of GET /confirm as the handler sees it: absent or
falsy, structurally invalid (jwt.verify throws), or a well-formed signed token. -/
inductive Presented where
  | missing : Presented
  | malformed : Presented
  | tok : SignedToken → Presented
deriving DecidableEq

/-- Plaintext response of GET /confirm. -/
structure ConfirmResult where
  status : Nat
  body : String
deriving DecidableEq

/-- Decision the /confirm handler reaches before its store update: either an
early rejection response, or a redemption of the decoded transaction id. -/
inductive ConfirmDecision where
  | reject : Nat → String → ConfirmDecision
  | redeem : String → ConfirmDecision
deriving DecidableEq

/-- Stored expiry as compared by new Date() > new Date(value): a null column
becomes the epoch. -/
def expiryMs : Option Nat → Nat
  | none => 0
  | some e => e

/-- Read-and-check phase of GET /confirm, up to but excluding the store update.
The read argument is the store lookup keyed by decoded transaction id and
recomputed token hash. jwt.verify throws (caught as the uniform 400 response)
when the token is structurally invalid, signed with another secret, or past its
embedded expiry; a store error or empty .single() yields Invalid token; then
the used flag and the stored expiry are checked in order. -/
def confirmDecide (secret : String) (pres : Presented) (now : Nat)
    (read : String → Digest → DbSingle Txn) : ConfirmDecision :=
  match pres with
  | Presented.missing => ConfirmDecision.reject 400 "Token required"
  | Presented.malformed => ConfirmDecision.reject 400 "Invalid or Expired Token"
  | Presented.tok t =>
    if t.secret ≠ secret ∨ t.exp ≤ now then
      ConfirmDecision.reject 400 "Invalid or Expired Token"
    else
      match read t.payload.transaction_id (Digest.sha256OfToken t) with
      | DbSingle.err => ConfirmDecision.reject 400 "Invalid token"
      | DbSingle.ok txn =>
        if txn.confirmation_used then ConfirmDecision.reject 400 "Token already used"
        else if expiryMs txn.confirmation_expires_at < now then
          ConfirmDecision.reject 400 "Token expired"
        else ConfirmDecision.redeem t.payload.transaction_id

/-- Row payload of the .update() call in GET /confirm on success. -/
def redeemUpdate (t : Txn) : Txn :=
  { t with status := "verified", confirmation_used := true }

/-- Store update of GET /confirm on success: set status verified and the used
flag on every row matching the decoded transaction id. The predicate mentions
only the transaction id; it does not re-check the used flag. -/
def applyConfirmUpdate (tid : String) (s : Store) : Store :=
  updateWhere s (fun t => decide (t.transaction_id = tid)) redeemUpdate

/-- GET /confirm as a single sequential request against one store state. -/
def confirmRun (secret : String) (pres : Presented) (now : Nat) (s : Store) :
    ConfirmResult × Store :=
  match confirmDecide secret pres now (readSingle s) with
  | ConfirmDecision.reject c m => (⟨c, m⟩, s)
  | ConfirmDecision.redeem tid =>
    (⟨200, "Transaction Verified Successfully"⟩, applyConfirmUpdate tid s)

/-- Response of one /confirm decision together with the update it performs. -/
def confirmFinish (d : ConfirmDecision) (s : Store) : ConfirmResult × Store :=
  match d with
  | ConfirmDecision.reject c m => (⟨c, m⟩, s)
  | ConfirmDecision.redeem tid =>
    (⟨200, "Transaction Verified Successfully"⟩, applyConfirmUpdate tid s)

/-- Two concurrent GET /confirm requests for the same presented token whose
read phases both run against the initial store before either update is applied:
the interleaving read A, read B, write A, write B. -/
def confirmRace (secret : String) (pres : Presented) (now : Nat) (s0 : Store) :
    (ConfirmResult × ConfirmResult) × Store :=
  let dA := confirmDecide secret pres now (readSingle s0)
  let dB := confirmDecide secret pres now (readSingle s0)
  let (rA, s1) := confirmFinish dA s0
  let (rB, s2) := confirmFinish dB s1
  ((rA, rB), s2)

/-- In-memory uploaded file as multer presents it. -/
structure UploadedFile where
  originalname : String
  mimetype : String
  size : Nat
deriving DecidableEq

/-- Outcome of the multer layer (fileFilter allowlist and fileSize limit)
together with the terminal error-handling middleware that maps a MulterError
LIMIT_FILE_SIZE and a fileFilter error to 400 JSON responses. -/
inductive MulterOutcome where
  | accepted : MulterOutcome
  | rejected : Nat → String → MulterOutcome
deriving DecidableEq

/-- The multer policy layer for the single file field: fileFilter consults the
MIME allowlist when the file part is encountered, before the stream is stored;
an accepted stream is then subject to the 5 MiB fileSize limit. -/
def multerProcess (f : UploadedFile) : MulterOutcome :=
  if ¬ ALLOWED_MIME_TYPES.contains f.mimetype then
    MulterOutcome.rejected 400 "Invalid file type. Only PDF, JPEG, and PNG are allowed."
  else if MAX_FILE_SIZE < f.size then
    MulterOutcome.rejected 400 "File too large. Max size is 5MB."
  else MulterOutcome.accepted

/-- Response of POST /upload-proof, mirroring res.json shapes. -/
structure UploadResponse where
  status : Nat
  message : Option String
  error : Option String
deriving DecidableEq

/-- Handler body of POST /upload-proof, after authenticate and multer. The
storageOk flag is the result of the storage bucket upload; rowUpdateOk is the
result of the transactions row update, whose error field the handler never
reads, so it can only influence the store, never the response. -/
def uploadProofBody (uid : String) (tid? : Option String) (file? : Option UploadedFile)
    (now : Nat) (storageOk rowUpdateOk : Bool) (s : Store) : UploadResponse × Store :=
  match tid?, file? with
  | some tid, some file =>
    if tid = "" then (⟨400, none, some "transactionId and file are required"⟩, s)
    else
      match findByTid s tid with
      | none => (⟨404, none, some "Transaction not found"⟩, s)
      | some txn =>
        if txn.user_id ≠ uid then (⟨403, none, some "Forbidden"⟩, s)
        else if ¬ storageOk then (⟨500, none, some "Upload failed"⟩, s)
        else
          let filePath := tid ++ "/" ++ toString now ++ "-" ++ file.originalname
          let s1 :=
            if rowUpdateOk then
              updateWhere s (fun t => decide (t.transaction_id = tid))
                (fun t => { t with proof_files_urls := some filePath })
            else s
          (⟨200, some "Proof uploaded successfully", none⟩, s1)
  | _, _ => (⟨400, none, some "transactionId and file are required"⟩, s)

/-- POST /upload-proof after authenticate: the multer layer runs first when a
file part is present; its rejection is turned into the 400 response by the
error middleware and the handler body never runs. -/
def uploadProofRoute (uid : String) (tid? : Option String) (file? : Option UploadedFile)
    (now : Nat) (storageOk rowUpdateOk : Bool) (s : Store) : UploadResponse × Store :=
  match file? with
  | some f =>
    match multerProcess f with
    | MulterOutcome.rejected c m => (⟨c, none, some m⟩, s)
    | MulterOutcome.accepted => uploadProofBody uid tid? (some f) now storageOk rowUpdateOk s
  | none => uploadProofBody uid tid? none now storageOk rowUpdateOk s

/-- Business profile row of the profiles table; the handlers only key it by
the id column, its other columns are proxied through untouched. -/
structure Profile where
  id : String
deriving DecidableEq

/-- Result of a Supabase call whose error message the caller surfaces in its
response. -/
inductive DbRead (α : Type) where
  | err : String → DbRead α
  | ok : α → DbRead α
deriving DecidableEq

/-- Response of GET /report-data, reduced to status and error message; the
success payload (profile row, verified transactions and aggregate stats) is
the row proxying the spec scopes out and no claim mentions. -/
structure ReportResponse where
  status : Nat
  error : Option String
deriving DecidableEq

/-- GET /report-data after authenticate: the profile read and the verified
transactions read are checked in order, and each surfaces its store error
message as a 500; otherwise the handler answers 200. -/
def reportData (profile : DbRead Profile) (txns : DbRead (List Txn)) : ReportResponse :=
  match profile with
  | DbRead.err msg => ⟨500, some msg⟩
  | DbRead.ok _ =>
    match txns with
    | DbRead.err msg => ⟨500, some msg⟩
    | DbRead.ok _ => ⟨200, none⟩

/-- Handler body of POST /upload-proof with its row lookup injected as the
result of that .single() call, following the same convention as confirmDecide:
a store fault and a missing row both land in the txLookupError branch of the
handler and are answered 404. Agrees with uploadProofBody when the lookup is
the read of the request store snapshot (uploadProofRead_agrees). -/
def uploadProofRead (uid : String) (tid? : Option String) (file? : Option UploadedFile)
    (now : Nat) (lookup : String → DbSingle Txn) (storageOk rowUpdateOk : Bool) (s : Store) :
    UploadResponse × Store :=
  match tid?, file? with
  | some tid, some file =>
    if tid = "" then (⟨400, none, some "transactionId and file are required"⟩, s)
    else
      match lookup tid with
      | DbSingle.err => (⟨404, none, some "Transaction not found"⟩, s)
      | DbSingle.ok txn =>
        if txn.user_id ≠ uid then (⟨403, none, some "Forbidden"⟩, s)
        else if ¬ storageOk then (⟨500, none, some "Upload failed"⟩, s)
        else
          let filePath := tid ++ "/" ++ toString now ++ "-" ++ file.originalname
          let s1 :=
            if rowUpdateOk then
              updateWhere s (fun t => decide (t.transaction_id = tid))
                (fun t => { t with proof_files_urls := some filePath })
            else s
          (⟨200, some "Proof uploaded successfully", none⟩, s1)
  | _, _ => (⟨400, none, some "transactionId and file are required"⟩, s)

/-- POST /generate-confirmation with its row lookup injected likewise: a store
fault and a missing row both land in the txLookupError branch and are answered
404. Agrees with generateConfirmation2 when the lookup is the read of the s1
snapshot (generateConfirmationRead_agrees). -/
def generateConfirmationRead (secret baseUrl uid : String) (tid? : Option String)
    (nonce : String) (now : Nat) (lookup : String → DbSingle Txn) (write : DbWrite)
    (s2 : Store) : GenConfResponse × Store :=
  match tid? with
  | none => (⟨400, some "transactionId required", none⟩, s2)
  | some tid =>
    if tid = "" then (⟨400, some "transactionId required", none⟩, s2)
    else
      match lookup tid with
      | DbSingle.err => (⟨404, some "Transaction not found", none⟩, s2)
      | DbSingle.ok txn =>
        if txn.user_id ≠ uid then (⟨403, some "Forbidden", none⟩, s2)
        else
          match write with
          | DbWrite.err msg =>
            (⟨500, some ("Failed to store confirmation token: " ++ msg), none⟩, s2)
          | DbWrite.ok =>
            let s3 := updateWhere s2 (fun t => decide (t.transaction_id = tid))
              (mintUpdate secret tid nonce now)
            if countWhere s2 (fun t => decide (t.transaction_id = tid)) = 0 then
              (⟨404, some "Transaction not found for this user", none⟩, s3)
            else
              (⟨200, none,
                some (confirmationLink baseUrl (encodeToken (mintToken secret tid nonce now)))⟩, s3)

/-! Concrete fixtures used by witnesses and counterexamples. -/

/-- A pending transaction owned by user u1, with no live token. -/
def wTxn : Txn :=
  { transaction_id := "t1", user_id := "u1", status := "pending",
    confirmation_token_hash := none, confirmation_expires_at := none,
    confirmation_used := false, proof_files_urls := none }

/-- A one-row store holding wTxn. -/
def wStore : Store := [wTxn]

/-- The store right after a mint at time 0 with secret k and nonce n0: the
stored expiry and the embedded expiry of the live token are the same instant. -/
def sampleMintedStore : Store :=
  [{ transaction_id := "t1", user_id := "u1", status := "pending",
     confirmation_token_hash := some (Digest.sha256OfToken (mintToken "k" "t1" "n0" 0)),
     confirmation_expires_at := some VALIDITY_MS,
     confirmation_used := false, proof_files_urls := none }]


/-! Helper lemmas about the store primitives. -/

theorem isPrefixOf_append_right {p m : List Char} (n : List Char)
    (h : p.isPrefixOf m = true) : p.isPrefixOf (m ++ n) = true := by
  induction p generalizing m with
  | nil => simp
  | cons a as ih =>
    cases m with
    | nil => simp at h
    | cons b bs =>
      rw [List.cons_append, List.isPrefixOf_cons₂] at *
      rw [Bool.and_eq_true] at h
      rw [Bool.and_eq_true]
      exact ⟨h.1, ih h.2⟩

theorem jsStartsWith_append (s r p : String) (h : jsStartsWith s p = true) :
    jsStartsWith (s ++ r) p = true := by
  unfold jsStartsWith at *
  rw [String.data_append]
  exact isPrefixOf_append_right r.data h

theorem updateWhere_cons (a : Txn) (l : List Txn) (p : Txn → Bool) (f : Txn → Txn) :
    updateWhere (a :: l) p f = (if p a then f a else a) :: updateWhere l p f := rfl

theorem findByTid_updateWhere (s : Store) (tid : String) (f : Txn → Txn)
    (hf : ∀ t, (f t).transaction_id = t.transaction_id) :
    findByTid (updateWhere s (fun t => decide (t.transaction_id = tid)) f) tid
      = (findByTid s tid).map f := by
  induction s with
  | nil => rfl
  | cons a l ih =>
    rw [updateWhere_cons]
    unfold findByTid at *
    by_cases htid : a.transaction_id = tid
    · rw [if_pos (by simpa using htid)]
      rw [List.find?_cons_of_pos _ (by simpa using (hf a).trans htid),
          List.find?_cons_of_pos _ (by simpa using htid)]
      rfl
    · rw [if_neg (by simpa using htid)]
      rw [List.find?_cons_of_neg _ (by simpa using htid),
          List.find?_cons_of_neg _ (by simpa using htid)]
      exact ih

theorem findByTidHash_updateWhere_preserve (s : Store) (tid : String) (h : Digest)
    (g : Txn → Txn)
    (hg : ∀ t, (g t).transaction_id = t.transaction_id ∧
               (g t).confirmation_token_hash = t.confirmation_token_hash) :
    findByTidHash (updateWhere s (fun t => decide (t.transaction_id = tid)) g) tid h
      = (findByTidHash s tid h).map g := by
  induction s with
  | nil => rfl
  | cons a l ih =>
    rw [updateWhere_cons]
    unfold findByTidHash at *
    by_cases htid : a.transaction_id = tid
    · rw [if_pos (by simpa using htid)]
      by_cases hh : a.confirmation_token_hash = some h
      · rw [List.find?_cons_of_pos _
              (by simp only [decide_eq_true_eq]; exact ⟨(hg a).1.trans htid, (hg a).2.trans hh⟩),
            List.find?_cons_of_pos _ (by simp only [decide_eq_true_eq]; exact ⟨htid, hh⟩)]
        rfl
      · rw [List.find?_cons_of_neg _
              (by simp only [decide_eq_true_eq]; exact fun hc => hh ((hg a).2.symm.trans hc.2)),
            List.find?_cons_of_neg _ (by simp only [decide_eq_true_eq]; exact fun hc => hh hc.2)]
        exact ih
    · rw [if_neg (by simpa using htid)]
      rw [List.find?_cons_of_neg _ (by simp only [decide_eq_true_eq]; exact fun hc => htid hc.1),
          List.find?_cons_of_neg _ (by simp only [decide_eq_true_eq]; exact fun hc => htid hc.1)]
      exact ih

theorem findByTidHash_updateWhere_set (s : Store) (tid : String) (h : Digest)
    (f : Txn → Txn)
    (hf : ∀ t, (f t).transaction_id = t.transaction_id ∧
               (f t).confirmation_token_hash = some h) :
    findByTidHash (updateWhere s (fun t => decide (t.transaction_id = tid)) f) tid h
      = (findByTid s tid).map f := by
  induction s with
  | nil => rfl
  | cons a l ih =>
    rw [updateWhere_cons]
    unfold findByTidHash findByTid at *
    by_cases htid : a.transaction_id = tid
    · rw [if_pos (by simpa using htid)]
      rw [List.find?_cons_of_pos _
            (by simp only [decide_eq_true_eq]; exact ⟨(hf a).1.trans htid, (hf a).2⟩),
          List.find?_cons_of_pos _ (by simpa using htid)]
      rfl
    · rw [if_neg (by simpa using htid)]
      rw [List.find?_cons_of_neg _ (by simp only [decide_eq_true_eq]; exact fun hc => htid hc.1),
          List.find?_cons_of_neg _ (by simpa using htid)]
      exact ih

theorem findByTidHash_updateWhere_set_ne (s : Store) (tid : String) (h1 h2 : Digest)
    (f : Txn → Txn)
    (hf : ∀ t, (f t).transaction_id = t.transaction_id ∧
               (f t).confirmation_token_hash = some h2)
    (hne : h1 ≠ h2) :
    findByTidHash (updateWhere s (fun t => decide (t.transaction_id = tid)) f) tid h1
      = none := by
  induction s with
  | nil => rfl
  | cons a l ih =>
    rw [updateWhere_cons]
    unfold findByTidHash at *
    by_cases htid : a.transaction_id = tid
    · rw [if_pos (by simpa using htid)]
      rw [List.find?_cons_of_neg _
            (by
              simp only [decide_eq_true_eq]
              intro hc
              rw [(hf a).2] at hc
              exact hne (Option.some.inj hc.2).symm)]
      exact ih
    · rw [if_neg (by simpa using htid)]
      rw [List.find?_cons_of_neg _ (by simp only [decide_eq_true_eq]; exact fun hc => htid hc.1)]
      exact ih

theorem countWhere_pos_of_findByTid (s : Store) (tid : String) (txn : Txn)
    (h : findByTid s tid = some txn) :
    countWhere s (fun t => decide (t.transaction_id = tid)) ≠ 0 := by
  induction s with
  | nil => simp [findByTid] at h
  | cons a l ih =>
    unfold findByTid countWhere at *
    rw [List.filter_cons]
    by_cases htid : a.transaction_id = tid
    · rw [if_pos (by simpa using htid)]
      simp
    · rw [List.find?_cons_of_neg _ (by simpa using htid)] at h
      rw [if_neg (by simpa using htid)]
      exact ih h

theorem updateWhere_of_countWhere_zero (s : Store) (p : Txn → Bool) (f : Txn → Txn)
    (h : countWhere s p = 0) : updateWhere s p f = s := by
  induction s with
  | nil => rfl
  | cons a l ih =>
    rw [updateWhere_cons]
    unfold countWhere at *
    rw [List.filter_cons] at h
    by_cases hp : p a = true
    · rw [if_pos hp] at h
      simp at h
    · rw [if_neg hp] at h
      rw [if_neg (by simpa using hp)]
      rw [ih h]

theorem uploadProofRead_agrees (uid : String) (tid? : Option String)
    (file? : Option UploadedFile) (now : Nat) (storageOk rowUpdateOk : Bool) (s : Store) :
    uploadProofRead uid tid? file? now (fun tid => dbSingleOf (findByTid s tid))
        storageOk rowUpdateOk s
      = uploadProofBody uid tid? file? now storageOk rowUpdateOk s := by
  unfold uploadProofRead uploadProofBody
  rcases tid? with _ | tid
  · rfl
  rcases file? with _ | file
  · rfl
  dsimp only
  by_cases htid : tid = ""
  · rw [if_pos htid, if_pos htid]
  · rw [if_neg htid, if_neg htid]
    rcases hfind : findByTid s tid with _ | txn <;> rfl

theorem generateConfirmationRead_agrees (secret baseUrl uid : String) (tid? : Option String)
    (nonce : String) (now : Nat) (write : DbWrite) (s1 s2 : Store) :
    generateConfirmationRead secret baseUrl uid tid? nonce now
        (fun tid => dbSingleOf (findByTid s1 tid)) write s2
      = generateConfirmation2 secret baseUrl uid tid? nonce now write s1 s2 := by
  unfold generateConfirmationRead generateConfirmation2
  rcases tid? with _ | tid
  · rfl
  dsimp only
  by_cases htid : tid = ""
  · rw [if_pos htid, if_pos htid]
  · rw [if_neg htid, if_neg htid]
    rcases hfind : findByTid s1 tid with _ | txn <;> rfl

/-! Claims. -/

/-- C1: for every authenticated principal uid and transaction row txn with
txn.user_id different from uid, POST /generate-confirmation and
POST /upload-proof answer 403 Forbidden and leave the store unchanged, for
every nonce, clock value, file and storage outcome; the decision is a function
of the row fetched from the store in that request. -/
theorem c1_owner_mismatch_forbidden
    (secret base uid tid : String) (s : Store) (txn : Txn)
    (htid : tid ≠ "") (hfind : findByTid s tid = some txn) (hown : txn.user_id ≠ uid) :
    (∀ (nonce : String) (now : Nat),
      generateConfirmation secret base uid (some tid) nonce now s
        = (⟨403, some "Forbidden", none⟩, s))
    ∧ (∀ (file : UploadedFile) (now : Nat) (storageOk rowUpdateOk : Bool),
      uploadProofBody uid (some tid) (some file) now storageOk rowUpdateOk s
        = (⟨403, none, some "Forbidden"⟩, s)) := by
  constructor
  · intro nonce now
    simp only [generateConfirmation, generateConfirmation2, hfind, if_neg htid, if_pos hown]
  · intro file now storageOk rowUpdateOk
    simp only [uploadProofBody, hfind, if_neg htid, if_pos hown]

/-- C1 witness: a concrete principal u2 acting on a transaction owned by u1. -/
theorem c1_owner_mismatch_forbidden_witness :
    ("t1" : String) ≠ "" ∧ findByTid wStore "t1" = some wTxn ∧ wTxn.user_id ≠ "u2"
    ∧ generateConfirmation "k" "https://app.example" "u2" (some "t1") "n0" 0 wStore
        = (⟨403, some "Forbidden", none⟩, wStore)
    ∧ uploadProofBody "u2" (some "t1")
        (some { originalname := "p.pdf", mimetype := "application/pdf", size := 17 })
        0 true true wStore
        = (⟨403, none, some "Forbidden"⟩, wStore) :=
  ⟨by decide, by decide, by decide,
   (c1_owner_mismatch_forbidden "k" "https://app.example" "u2" "t1" wStore wTxn
      (by decide) (by decide) (by decide)).1 "n0" 0,
   (c1_owner_mismatch_forbidden "k" "https://app.example" "u2" "t1" wStore wTxn
      (by decide) (by decide) (by decide)).2
     { originalname := "p.pdf", mimetype := "application/pdf", size := 17 } 0 true true⟩

/-- C7: the upload policy layer rejects a file over the 5 MiB ceiling with the
400 too-large response, and a file with a MIME type outside the fixed allowlist
with the 400 invalid-file-type response; in both cases the handler body never
runs and the store is unchanged, whatever the rest of the request is. The MIME
filter runs when the file part is encountered, so the size case is stated for
files that pass it. -/
theorem c7_upload_policy_rejections
    (uid : String) (tid? : Option String) (f : UploadedFile) (now : Nat)
    (storageOk rowUpdateOk : Bool) (s : Store) :
    (ALLOWED_MIME_TYPES.contains f.mimetype = true → MAX_FILE_SIZE < f.size →
      uploadProofRoute uid tid? (some f) now storageOk rowUpdateOk s
        = (⟨400, none, some "File too large. Max size is 5MB."⟩, s))
    ∧ (ALLOWED_MIME_TYPES.contains f.mimetype = false →
      uploadProofRoute uid tid? (some f) now storageOk rowUpdateOk s
        = (⟨400, none, some "Invalid file type. Only PDF, JPEG, and PNG are allowed."⟩, s)) := by
  constructor
  · intro hmime hsize
    simp only [uploadProofRoute, multerProcess, hmime, not_true, if_neg, if_pos hsize]
    simp
  · intro hmime
    simp only [uploadProofRoute, multerProcess, hmime]
    simp

/-- C7 witness: a 6 MiB PDF is rejected as too large; a 17-byte text file is
rejected for its MIME type; the store is untouched in both runs. -/
theorem c7_upload_policy_rejections_witness :
    ALLOWED_MIME_TYPES.contains "application/pdf" = true
    ∧ MAX_FILE_SIZE < 6 * 1024 * 1024
    ∧ uploadProofRoute "u1" (some "t1")
        (some { originalname := "big.pdf", mimetype := "application/pdf", size := 6 * 1024 * 1024 })
        0 true true wStore
        = (⟨400, none, some "File too large. Max size is 5MB."⟩, wStore)
    ∧ ALLOWED_MIME_TYPES.contains "text/plain" = false
    ∧ uploadProofRoute "u1" (some "t1")
        (some { originalname := "a.txt", mimetype := "text/plain", size := 17 })
        0 true true wStore
        = (⟨400, none, some "Invalid file type. Only PDF, JPEG, and PNG are allowed."⟩, wStore) :=
  ⟨by decide, by decide,
   (c7_upload_policy_rejections "u1" (some "t1")
      { originalname := "big.pdf", mimetype := "application/pdf", size := 6 * 1024 * 1024 }
      0 true true wStore).1 (by decide) (by decide),
   by decide,
   (c7_upload_policy_rejections "u1" (some "t1")
      { originalname := "a.txt", mimetype := "text/plain", size := 17 }
      0 true true wStore).2 (by decide)⟩

/-- C10: for an accepted upload on an existing transaction owned by the caller,
once the byte-storage step succeeds the handler answers 200 with the success
message whether or not the row update of the proof-file path succeeds, because
the handler never reads the result of that update; only a failure of the
storage step itself yields an error response. -/
theorem c10_row_update_error_ignored
    (uid tid : String) (file : UploadedFile) (now : Nat) (s : Store) (txn : Txn)
    (htid : tid ≠ "") (hfind : findByTid s tid = some txn) (hown : txn.user_id = uid) :
    (∀ rowUpdateOk : Bool,
      (uploadProofBody uid (some tid) (some file) now true rowUpdateOk s).1
        = ⟨200, some "Proof uploaded successfully", none⟩)
    ∧ (∀ rowUpdateOk : Bool,
      uploadProofBody uid (some tid) (some file) now false rowUpdateOk s
        = (⟨500, none, some "Upload failed"⟩, s)) := by
  have hown2 : ¬ txn.user_id ≠ uid := fun hc => hc hown
  constructor
  · intro rowUpdateOk
    simp only [uploadProofBody, hfind, if_neg htid, if_neg hown2]
    simp
  · intro rowUpdateOk
    simp only [uploadProofBody, hfind, if_neg htid, if_neg hown2]
    simp

/-- C10 witness: owner u1 uploads to transaction t1; with the storage step
succeeding and the row update failing, the response is still the 200 success
message; with the storage step failing, the response is the 500 upload error. -/
theorem c10_row_update_error_ignored_witness :
    ("t1" : String) ≠ "" ∧ findByTid wStore "t1" = some wTxn ∧ wTxn.user_id = "u1"
    ∧ (uploadProofBody "u1" (some "t1")
        (some { originalname := "p.pdf", mimetype := "application/pdf", size := 17 })
        0 true false wStore).1
        = ⟨200, some "Proof uploaded successfully", none⟩
    ∧ uploadProofBody "u1" (some "t1")
        (some { originalname := "p.pdf", mimetype := "application/pdf", size := 17 })
        0 false false wStore
        = (⟨500, none, some "Upload failed"⟩, wStore) :=
  ⟨by decide, by decide, by decide,
   (c10_row_update_error_ignored "u1" "t1"
      { originalname := "p.pdf", mimetype := "application/pdf", size := 17 }
      0 wStore wTxn (by decide) (by decide) (by decide)).1 false,
   (c10_row_update_error_ignored "u1" "t1"
      { originalname := "p.pdf", mimetype := "application/pdf", size := 17 }
      0 wStore wTxn (by decide) (by decide) (by decide)).2 false⟩

/-- C6: minting on an existing transaction owned by the caller persists on that
row exactly the commitment of the signed token, the expiry now plus 72 hours,
and a cleared used flag, leaving every other column of the row unchanged and
replacing any prior commitment; the response carries the confirmation link.
When the update matches zero rows, the handler answers 404 with no link and
the store is unchanged. -/
theorem c6_mint_persists_commitment
    (secret base uid tid nonce : String) (now : Nat) (s : Store) (txn : Txn)
    (htid : tid ≠ "") (hfind : findByTid s tid = some txn) (hown : txn.user_id = uid) :
    (generateConfirmation secret base uid (some tid) nonce now s).1
      = ⟨200, none, some (confirmationLink base (encodeToken (mintToken secret tid nonce now)))⟩
    ∧ findByTid (generateConfirmation secret base uid (some tid) nonce now s).2 tid
      = some { txn with
          confirmation_token_hash := some (Digest.sha256OfToken (mintToken secret tid nonce now))
          confirmation_expires_at := some (now + VALIDITY_MS)
          confirmation_used := false }
    ∧ (∀ s2 : Store, countWhere s2 (fun t => decide (t.transaction_id = tid)) = 0 →
        generateConfirmation2 secret base uid (some tid) nonce now DbWrite.ok s s2
          = (⟨404, some "Transaction not found for this user", none⟩, s2)) := by
  have hown2 : ¬ txn.user_id ≠ uid := fun hc => hc hown
  have hcount := countWhere_pos_of_findByTid s tid txn hfind
  refine ⟨?_, ?_, ?_⟩
  · simp only [generateConfirmation, generateConfirmation2, hfind, if_neg htid, if_neg hown2,
      if_neg hcount]
  · simp only [generateConfirmation, generateConfirmation2, hfind, if_neg htid, if_neg hown2,
      if_neg hcount]
    rw [findByTid_updateWhere s tid (mintUpdate secret tid nonce now) (fun t => rfl), hfind]
    rfl
  · intro s2 hzero
    simp only [generateConfirmation2, hfind, if_neg htid, if_neg hown2, if_pos hzero]
    rw [updateWhere_of_countWhere_zero s2 _ _ hzero]

/-- C6 witness: owner u1 mints for transaction t1 at time 0; the row afterwards
holds exactly the commitment, the 72 hour expiry and a cleared used flag; an
update run against an empty snapshot reports 404 with no link. -/
theorem c6_mint_persists_commitment_witness :
    ("t1" : String) ≠ "" ∧ findByTid wStore "t1" = some wTxn ∧ wTxn.user_id = "u1"
    ∧ (generateConfirmation "k" "https://app.example" "u1" (some "t1") "n0" 0 wStore).1
      = ⟨200, none, some (confirmationLink "https://app.example" (encodeToken (mintToken "k" "t1" "n0" 0)))⟩
    ∧ findByTid (generateConfirmation "k" "https://app.example" "u1" (some "t1") "n0" 0 wStore).2 "t1"
      = some { wTxn with
          confirmation_token_hash := some (Digest.sha256OfToken (mintToken "k" "t1" "n0" 0))
          confirmation_expires_at := some VALIDITY_MS
          confirmation_used := false }
    ∧ generateConfirmation2 "k" "https://app.example" "u1" (some "t1") "n0" 0 DbWrite.ok wStore []
      = (⟨404, some "Transaction not found for this user", none⟩, []) :=
  ⟨by decide, by decide, by decide,
   (c6_mint_persists_commitment "k" "https://app.example" "u1" "t1" "n0" 0 wStore wTxn
      (by decide) (by decide) (by decide)).1,
   (c6_mint_persists_commitment "k" "https://app.example" "u1" "t1" "n0" 0 wStore wTxn
      (by decide) (by decide) (by decide)).2.1,
   (c6_mint_persists_commitment "k" "https://app.example" "u1" "t1" "n0" 0 wStore wTxn
      (by decide) (by decide) (by decide)).2.2 [] (by decide)⟩

/-- C2: on an existing transaction owned by the caller, redeeming the freshly
minted token right after mint succeeds, setting status verified and the used
flag on the row; redeeming the same token again answers 400 Token already used
and changes nothing. -/
theorem c2_redeem_once_then_already_used
    (secret base uid tid nonce : String) (now : Nat) (s s1 : Store) (txn : Txn)
    (htid : tid ≠ "") (hfind : findByTid s tid = some txn) (hown : txn.user_id = uid)
    (hs1 : s1 = (generateConfirmation secret base uid (some tid) nonce now s).2) :
    confirmRun secret (Presented.tok (mintToken secret tid nonce now)) now s1
      = (⟨200, "Transaction Verified Successfully"⟩, applyConfirmUpdate tid s1)
    ∧ findByTid (applyConfirmUpdate tid s1) tid
      = some { txn with
          confirmation_token_hash := some (Digest.sha256OfToken (mintToken secret tid nonce now))
          confirmation_expires_at := some (now + VALIDITY_MS)
          confirmation_used := true
          status := "verified" }
    ∧ confirmRun secret (Presented.tok (mintToken secret tid nonce now)) now
        (applyConfirmUpdate tid s1)
      = (⟨400, "Token already used"⟩, applyConfirmUpdate tid s1) := by
  have hown2 : ¬ txn.user_id ≠ uid := fun hc => hc hown
  have hcount := countWhere_pos_of_findByTid s tid txn hfind
  have hV : 0 < VALIDITY_MS := by norm_num [VALIDITY_MS]
  have hjwt : ¬ (secret ≠ secret ∨ now + VALIDITY_MS ≤ now) := by
    push_neg
    exact ⟨rfl, by omega⟩
  have hs1' : s1 = updateWhere s (fun t => decide (t.transaction_id = tid))
      (mintUpdate secret tid nonce now) := by
    rw [hs1]
    simp only [generateConfirmation, generateConfirmation2, hfind, if_neg htid, if_neg hown2,
      if_neg hcount]
  have hread1 : findByTidHash s1 tid
      (Digest.sha256OfToken ⟨⟨tid, nonce⟩, now + VALIDITY_MS, secret⟩)
      = some (mintUpdate secret tid nonce now txn) := by
    rw [hs1']
    rw [findByTidHash_updateWhere_set s tid
      (Digest.sha256OfToken ⟨⟨tid, nonce⟩, now + VALIDITY_MS, secret⟩)
      (mintUpdate secret tid nonce now) (fun t => ⟨rfl, rfl⟩)]
    rw [hfind]
    rfl
  have hexpiry : ¬ (expiryMs (mintUpdate secret tid nonce now txn).confirmation_expires_at < now) := by
    simp only [mintUpdate, expiryMs]
    omega
  have hused1 : (mintUpdate secret tid nonce now txn).confirmation_used = false := rfl
  refine ⟨?_, ?_, ?_⟩
  · simp only [confirmRun, confirmDecide, mintToken, if_neg hjwt, readSingle, hread1, dbSingleOf,
      hused1, Bool.false_eq_true, if_false, if_neg hexpiry]
  · unfold applyConfirmUpdate
    rw [findByTid_updateWhere s1 tid redeemUpdate (fun t => rfl), hs1',
        findByTid_updateWhere s tid (mintUpdate secret tid nonce now) (fun t => rfl), hfind]
    rfl
  · have hread2 : findByTidHash (applyConfirmUpdate tid s1) tid
        (Digest.sha256OfToken ⟨⟨tid, nonce⟩, now + VALIDITY_MS, secret⟩)
        = some (redeemUpdate (mintUpdate secret tid nonce now txn)) := by
      unfold applyConfirmUpdate
      rw [findByTidHash_updateWhere_preserve s1 tid _ redeemUpdate (fun t => ⟨rfl, rfl⟩), hread1]
      rfl
    have hused2 : (redeemUpdate (mintUpdate secret tid nonce now txn)).confirmation_used = true := rfl
    simp only [confirmRun, confirmDecide, mintToken, if_neg hjwt, readSingle, hread2, dbSingleOf,
      hused2, if_true]

/-- C2 witness: mint for t1 at time 0, redeem at time 0, redeem again. -/
theorem c2_redeem_once_then_already_used_witness :
    findByTid wStore "t1" = some wTxn ∧ wTxn.user_id = "u1"
    ∧ sampleMintedStore
        = (generateConfirmation "k" "https://app.example" "u1" (some "t1") "n0" 0 wStore).2
    ∧ confirmRun "k" (Presented.tok (mintToken "k" "t1" "n0" 0)) 0 sampleMintedStore
        = (⟨200, "Transaction Verified Successfully"⟩, applyConfirmUpdate "t1" sampleMintedStore)
    ∧ confirmRun "k" (Presented.tok (mintToken "k" "t1" "n0" 0)) 0
        (applyConfirmUpdate "t1" sampleMintedStore)
        = (⟨400, "Token already used"⟩, applyConfirmUpdate "t1" sampleMintedStore) :=
  ⟨by decide, by decide, by decide,
   (c2_redeem_once_then_already_used "k" "https://app.example" "u1" "t1" "n0" 0 wStore
      sampleMintedStore wTxn (by decide) (by decide) (by decide) (by decide)).1,
   (c2_redeem_once_then_already_used "k" "https://app.example" "u1" "t1" "n0" 0 wStore
      sampleMintedStore wTxn (by decide) (by decide) (by decide) (by decide)).2.2⟩

/-- C4: after a second mint for the same transaction with a fresh nonce, the
token of the first mint is rejected with 400 Invalid token while still inside
its own validity window, because the stored commitment now is the SHA-256 of
the second token and no row matches the hash of the first; the store is
unchanged. -/
theorem c4_second_mint_invalidates_first
    (secret base uid tid n1 n2 : String) (now1 now2 now3 : Nat) (s s1 s2 : Store) (txn : Txn)
    (htid : tid ≠ "") (hfind : findByTid s tid = some txn) (hown : txn.user_id = uid)
    (hnonce : n1 ≠ n2) (hfresh : now3 < now1 + VALIDITY_MS)
    (hs1 : s1 = (generateConfirmation secret base uid (some tid) n1 now1 s).2)
    (hs2 : s2 = (generateConfirmation secret base uid (some tid) n2 now2 s1).2) :
    confirmRun secret (Presented.tok (mintToken secret tid n1 now1)) now3 s2
      = (⟨400, "Invalid token"⟩, s2) := by
  have hown2 : ¬ txn.user_id ≠ uid := fun hc => hc hown
  have hcount := countWhere_pos_of_findByTid s tid txn hfind
  have hs1' : s1 = updateWhere s (fun t => decide (t.transaction_id = tid))
      (mintUpdate secret tid n1 now1) := by
    rw [hs1]
    simp only [generateConfirmation, generateConfirmation2, hfind, if_neg htid, if_neg hown2,
      if_neg hcount]
  have hfind1 : findByTid s1 tid = some (mintUpdate secret tid n1 now1 txn) := by
    rw [hs1', findByTid_updateWhere s tid (mintUpdate secret tid n1 now1) (fun t => rfl), hfind]
    rfl
  have hown21 : ¬ (mintUpdate secret tid n1 now1 txn).user_id ≠ uid := fun hc => hc hown
  have hcount1 := countWhere_pos_of_findByTid s1 tid _ hfind1
  have hs2' : s2 = updateWhere s1 (fun t => decide (t.transaction_id = tid))
      (mintUpdate secret tid n2 now2) := by
    rw [hs2]
    simp only [generateConfirmation, generateConfirmation2, hfind1, if_neg htid, if_neg hown21,
      if_neg hcount1]
  have hne : Digest.sha256OfToken (⟨⟨tid, n1⟩, now1 + VALIDITY_MS, secret⟩ : SignedToken)
      ≠ Digest.sha256OfToken (mintToken secret tid n2 now2) := by
    intro hc
    simp only [mintToken, Digest.sha256OfToken.injEq, SignedToken.mk.injEq,
      TokenPayload.mk.injEq] at hc
    exact hnonce hc.1.2
  have hread : findByTidHash s2 tid
      (Digest.sha256OfToken ⟨⟨tid, n1⟩, now1 + VALIDITY_MS, secret⟩) = none := by
    rw [hs2']
    exact findByTidHash_updateWhere_set_ne s1 tid _
      (Digest.sha256OfToken (mintToken secret tid n2 now2))
      (mintUpdate secret tid n2 now2) (fun t => ⟨rfl, rfl⟩) hne
  have hjwt : ¬ (secret ≠ secret ∨ now1 + VALIDITY_MS ≤ now3) := by
    push_neg
    exact ⟨rfl, by omega⟩
  simp only [confirmRun, confirmDecide, mintToken, if_neg hjwt, readSingle, hread, dbSingleOf]

/-- C4 witness: two mints for t1 at time 0 with nonces n0 and n9; the first
token is then rejected as invalid at time 0. -/
theorem c4_second_mint_invalidates_first_witness :
    ("n0" : String) ≠ "n9" ∧ (0 : Nat) < 0 + VALIDITY_MS
    ∧ confirmRun "k" (Presented.tok (mintToken "k" "t1" "n0" 0)) 0
        (generateConfirmation "k" "https://app.example" "u1" (some "t1") "n9" 0
          (generateConfirmation "k" "https://app.example" "u1" (some "t1") "n0" 0 wStore).2).2
      = (⟨400, "Invalid token"⟩,
         (generateConfirmation "k" "https://app.example" "u1" (some "t1") "n9" 0
          (generateConfirmation "k" "https://app.example" "u1" (some "t1") "n0" 0 wStore).2).2) :=
  ⟨by decide, by norm_num [VALIDITY_MS],
   c4_second_mint_invalidates_first "k" "https://app.example" "u1" "t1" "n0" "n9" 0 0 0
     wStore _ _ wTxn (by decide) (by decide) (by decide) (by decide)
     (by norm_num [VALIDITY_MS]) rfl rfl⟩

/-- C5 amended: presenting the token after its 72 hour window, with the stored
expiry and the embedded expiry set to the same instant by the mint, is rejected
with the uniform 400 Invalid or Expired Token response thrown by the JWT layer;
the store-side 400 Token expired branch is not the one that answers. The store
is unchanged. -/
theorem c5_expiry_rejected_at_jwt_layer
    (secret base uid tid nonce : String) (now1 now2 : Nat) (s s1 : Store) (txn : Txn)
    (htid : tid ≠ "") (hfind : findByTid s tid = some txn) (hown : txn.user_id = uid)
    (hlate : now1 + VALIDITY_MS < now2)
    (hs1 : s1 = (generateConfirmation secret base uid (some tid) nonce now1 s).2) :
    confirmRun secret (Presented.tok (mintToken secret tid nonce now1)) now2 s1
      = (⟨400, "Invalid or Expired Token"⟩, s1) := by
  have hjwt : secret ≠ secret ∨ now1 + VALIDITY_MS ≤ now2 := Or.inr (by omega)
  simp only [confirmRun, confirmDecide, mintToken, if_pos hjwt]

/-- C5 witness: mint at time 0 for t1, present the token one second after the
window; the answer is the uniform JWT-layer rejection. -/
theorem c5_expiry_rejected_at_jwt_layer_witness :
    (0 : Nat) + VALIDITY_MS < VALIDITY_MS + 1000
    ∧ sampleMintedStore
        = (generateConfirmation "k" "https://app.example" "u1" (some "t1") "n0" 0 wStore).2
    ∧ confirmRun "k" (Presented.tok (mintToken "k" "t1" "n0" 0)) (VALIDITY_MS + 1000)
        sampleMintedStore
      = (⟨400, "Invalid or Expired Token"⟩, sampleMintedStore) :=
  ⟨by norm_num [VALIDITY_MS], by decide,
   c5_expiry_rejected_at_jwt_layer "k" "https://app.example" "u1" "t1" "n0" 0
     (VALIDITY_MS + 1000) wStore sampleMintedStore wTxn (by decide) (by decide) (by decide)
     (by norm_num [VALIDITY_MS]) (by decide)⟩

/-- C5 counterexample: with the stored expiry and the embedded expiry both at
72 hours after a mint at time 0, a verify one second later is answered by the
uniform JWT-layer rejection, not by the store-side Token expired response the
claim names. -/
theorem c5_store_side_expired_not_reached :
    (confirmRun "k" (Presented.tok (mintToken "k" "t1" "n0" 0)) (VALIDITY_MS + 1000)
        sampleMintedStore).1
      = ⟨400, "Invalid or Expired Token"⟩
    ∧ (confirmRun "k" (Presented.tok (mintToken "k" "t1" "n0" 0)) (VALIDITY_MS + 1000)
        sampleMintedStore).1
      ≠ ⟨400, "Token expired"⟩ := by
  constructor
  · decide
  · decide

/-- C3: two concurrent redemptions of the same valid unused token whose reads
both happen before either write both answer the success response, because the
redemption update is keyed only on the transaction id and does not re-check the
used flag at write time; the claimed compare-and-set is absent. -/
theorem c3_concurrent_redemptions_both_succeed :
    (confirmRace "k" (Presented.tok (mintToken "k" "t1" "n0" 0)) 0 sampleMintedStore).1
      = (⟨200, "Transaction Verified Successfully"⟩,
         ⟨200, "Transaction Verified Successfully"⟩) := by
  decide

/-- C8: when any required env var is absent the startup validation fails and
the process exits before serving; when it passes, every confirmation link the
mint handler can ever answer starts with the https scheme. -/
theorem c8_startup_validation_and_https_links :
    (∀ e : ProcEnv,
      envPresent e.SUPABASE_URL = false ∨ envPresent e.SUPABASE_SERVICE_ROLE_KEY = false ∨
      envPresent e.JWT_SECRET = false ∨ envPresent e.CONFIRM_BASE_URL = false →
      startupOk e = false)
    ∧ (∀ (e : ProcEnv) (uid : String) (tid? : Option String) (nonce : String) (now : Nat)
        (s : Store) (link : String),
      startupOk e = true →
      (generateConfirmation (e.JWT_SECRET.getD "") (e.CONFIRM_BASE_URL.getD "")
          uid tid? nonce now s).1.confirmationLink = some link →
      jsStartsWith link "https://" = true) := by
  constructor
  · intro e h
    unfold startupOk
    rcases h with h | h | h | h <;> simp [h]
  · intro e uid tid? nonce now s link hok hlink
    have hbase : jsStartsWith (e.CONFIRM_BASE_URL.getD "") "https://" = true := by
      unfold startupOk at hok
      simp only [Bool.and_eq_true] at hok
      exact hok.2
    unfold generateConfirmation generateConfirmation2 at hlink
    rcases tid? with _ | tid
    · simp at hlink
    · simp only at hlink
      split at hlink
      · simp at hlink
      · split at hlink
        · simp at hlink
        · split at hlink
          · simp at hlink
          · split at hlink
            · simp at hlink
            · simp only [GenConfResponse.mk.injEq] at hlink
              obtain rfl : confirmationLink (e.CONFIRM_BASE_URL.getD "")
                  (encodeToken (mintToken (e.JWT_SECRET.getD "") tid nonce now)) = link :=
                Option.some.inj hlink
              unfold confirmationLink
              exact jsStartsWith_append _ _ _ (jsStartsWith_append _ _ _ hbase)

/-- C8 witness: a missing base URL stops startup; with a complete environment
the issued link for t1 starts with https. -/
theorem c8_startup_validation_and_https_links_witness :
    envPresent (none : Option String) = false
    ∧ startupOk { SUPABASE_URL := some "u", SUPABASE_SERVICE_ROLE_KEY := some "r",
                  JWT_SECRET := some "k", CONFIRM_BASE_URL := none } = false
    ∧ startupOk { SUPABASE_URL := some "u", SUPABASE_SERVICE_ROLE_KEY := some "r",
                  JWT_SECRET := some "k", CONFIRM_BASE_URL := some "https://app.example" } = true
    ∧ jsStartsWith (confirmationLink "https://app.example" (encodeToken (mintToken "k" "t1" "n0" 0)))
        "https://" = true :=
  ⟨by decide,
   (c8_startup_validation_and_https_links).1
     { SUPABASE_URL := some "u", SUPABASE_SERVICE_ROLE_KEY := some "r",
       JWT_SECRET := some "k", CONFIRM_BASE_URL := none }
     (Or.inr (Or.inr (Or.inr (by decide)))),
   by decide,
   (c8_startup_validation_and_https_links).2
     { SUPABASE_URL := some "u", SUPABASE_SERVICE_ROLE_KEY := some "r",
       JWT_SECRET := some "k", CONFIRM_BASE_URL := some "https://app.example" }
     "u1" (some "t1") "n0" 0 wStore
     (confirmationLink "https://app.example" (encodeToken (mintToken "k" "t1" "n0" 0)))
     (by decide) (by decide)⟩

/-- C9 amended: unexpected faults are mapped per call site, not uniformly to
500. authenticate answers an identity-verifier fault 500 Authentication failed
and a rejection 401 Unauthorized; GET /report-data answers a fault on either of
its store reads 500 carrying the store message; POST /generate-confirmation
answers a fault on its token-store write 500 but a fault on its row lookup 404
Transaction not found; POST /upload-proof answers a fault on its row lookup
404, a fault on its storage upload 500 Upload failed, and ignores a fault on
its row update, answering 200; GET /confirm answers a fault on its token-row
read 400 Invalid token and a structurally invalid token 400 Invalid or Expired
Token, never 500. -/
theorem c9_fault_propagation_amended :
    (∀ b : String, authenticate (some b) VerifierResult.fault
      = AuthOutcome.respond 500 "Authentication failed")
    ∧ (∀ b : String, authenticate (some b) VerifierResult.rejected
      = AuthOutcome.respond 401 "Unauthorized")
    ∧ (∀ (msg : String) (txns : DbRead (List Txn)),
      reportData (DbRead.err msg) txns = ⟨500, some msg⟩)
    ∧ (∀ (p : Profile) (msg : String),
      reportData (DbRead.ok p) (DbRead.err msg) = ⟨500, some msg⟩)
    ∧ (∀ (uid tid : String) (file : UploadedFile) (now : Nat)
        (storageOk rowUpdateOk : Bool) (s : Store), tid ≠ "" →
      uploadProofRead uid (some tid) (some file) now (fun _ => DbSingle.err)
          storageOk rowUpdateOk s
        = (⟨404, none, some "Transaction not found"⟩, s))
    ∧ (∀ (uid tid : String) (file : UploadedFile) (now : Nat) (rowUpdateOk : Bool)
        (s : Store) (txn : Txn), tid ≠ "" → txn.user_id = uid →
      uploadProofRead uid (some tid) (some file) now (fun _ => DbSingle.ok txn)
          false rowUpdateOk s
        = (⟨500, none, some "Upload failed"⟩, s))
    ∧ (∀ (uid tid : String) (file : UploadedFile) (now : Nat) (s : Store) (txn : Txn),
        tid ≠ "" → txn.user_id = uid →
      (uploadProofRead uid (some tid) (some file) now (fun _ => DbSingle.ok txn)
          true false s).1
        = ⟨200, some "Proof uploaded successfully", none⟩)
    ∧ (∀ (secret base uid tid nonce : String) (now : Nat) (write : DbWrite) (s2 : Store),
        tid ≠ "" →
      generateConfirmationRead secret base uid (some tid) nonce now
          (fun _ => DbSingle.err) write s2
        = (⟨404, some "Transaction not found", none⟩, s2))
    ∧ (∀ (secret base uid tid nonce msg : String) (now : Nat) (s2 : Store) (txn : Txn),
        tid ≠ "" → txn.user_id = uid →
      generateConfirmationRead secret base uid (some tid) nonce now
          (fun _ => DbSingle.ok txn) (DbWrite.err msg) s2
        = (⟨500, some ("Failed to store confirmation token: " ++ msg), none⟩, s2))
    ∧ (∀ (secret tid nonce : String) (now now2 : Nat), now2 < now + VALIDITY_MS →
      confirmDecide secret (Presented.tok (mintToken secret tid nonce now)) now2
          (fun _ _ => DbSingle.err)
        = ConfirmDecision.reject 400 "Invalid token")
    ∧ (∀ (secret : String) (now : Nat) (s : Store),
      confirmRun secret Presented.malformed now s
        = (⟨400, "Invalid or Expired Token"⟩, s)) := by
  refine ⟨fun b => rfl, fun b => rfl, fun msg txns => rfl, fun p msg => rfl,
    ?_, ?_, ?_, ?_, ?_, ?_, fun secret now s => rfl⟩
  · intro uid tid file now storageOk rowUpdateOk s htid
    simp only [uploadProofRead, if_neg htid]
  · intro uid tid file now rowUpdateOk s txn htid hown
    have hown2 : ¬ txn.user_id ≠ uid := fun hc => hc hown
    simp only [uploadProofRead, if_neg htid, if_neg hown2]
    simp
  · intro uid tid file now s txn htid hown
    have hown2 : ¬ txn.user_id ≠ uid := fun hc => hc hown
    simp only [uploadProofRead, if_neg htid, if_neg hown2]
    simp
  · intro secret base uid tid nonce now write s2 htid
    simp only [generateConfirmationRead, if_neg htid]
  · intro secret base uid tid nonce msg now s2 txn htid hown
    have hown2 : ¬ txn.user_id ≠ uid := fun hc => hc hown
    simp only [generateConfirmationRead, if_neg htid, if_neg hown2]
  · intro secret tid nonce now now2 hfresh
    have hjwt : ¬ (secret ≠ secret ∨ now + VALIDITY_MS ≤ now2) := by
      push_neg
      exact ⟨rfl, by omega⟩
    simp only [confirmDecide, mintToken, if_neg hjwt]

/-- C9 amended witness: each fault site exercised at a concrete input: verifier
fault and rejection, report-data read faults, upload and mint lookup faults,
storage and write faults, the ignored upload row-update fault, the confirm
read fault and a malformed token. -/
theorem c9_fault_propagation_amended_witness :
    authenticate (some "b") VerifierResult.fault = AuthOutcome.respond 500 "Authentication failed"
    ∧ authenticate (some "b") VerifierResult.rejected = AuthOutcome.respond 401 "Unauthorized"
    ∧ reportData (DbRead.err "down") (DbRead.ok []) = ⟨500, some "down"⟩
    ∧ reportData (DbRead.ok { id := "u1" }) (DbRead.err "down") = ⟨500, some "down"⟩
    ∧ ("t1" : String) ≠ "" ∧ wTxn.user_id = "u1"
    ∧ uploadProofRead "u1" (some "t1")
        (some { originalname := "p.pdf", mimetype := "application/pdf", size := 17 })
        0 (fun _ => DbSingle.err) true true wStore
      = (⟨404, none, some "Transaction not found"⟩, wStore)
    ∧ uploadProofRead "u1" (some "t1")
        (some { originalname := "p.pdf", mimetype := "application/pdf", size := 17 })
        0 (fun _ => DbSingle.ok wTxn) false true wStore
      = (⟨500, none, some "Upload failed"⟩, wStore)
    ∧ (uploadProofRead "u1" (some "t1")
        (some { originalname := "p.pdf", mimetype := "application/pdf", size := 17 })
        0 (fun _ => DbSingle.ok wTxn) true false wStore).1
      = ⟨200, some "Proof uploaded successfully", none⟩
    ∧ generateConfirmationRead "k" "https://app.example" "u1" (some "t1") "n0" 0
        (fun _ => DbSingle.err) DbWrite.ok wStore
      = (⟨404, some "Transaction not found", none⟩, wStore)
    ∧ generateConfirmationRead "k" "https://app.example" "u1" (some "t1") "n0" 0
        (fun _ => DbSingle.ok wTxn) (DbWrite.err "down") wStore
      = (⟨500, some ("Failed to store confirmation token: " ++ "down"), none⟩, wStore)
    ∧ confirmDecide "k" (Presented.tok (mintToken "k" "t1" "n0" 0)) 0 (fun _ _ => DbSingle.err)
      = ConfirmDecision.reject 400 "Invalid token"
    ∧ confirmRun "k" Presented.malformed 0 wStore = (⟨400, "Invalid or Expired Token"⟩, wStore) :=
  ⟨c9_fault_propagation_amended.1 "b",
   c9_fault_propagation_amended.2.1 "b",
   c9_fault_propagation_amended.2.2.1 "down" (DbRead.ok []),
   c9_fault_propagation_amended.2.2.2.1 { id := "u1" } "down",
   by decide, by decide,
   c9_fault_propagation_amended.2.2.2.2.1 "u1" "t1"
     { originalname := "p.pdf", mimetype := "application/pdf", size := 17 }
     0 true true wStore (by decide),
   c9_fault_propagation_amended.2.2.2.2.2.1 "u1" "t1"
     { originalname := "p.pdf", mimetype := "application/pdf", size := 17 }
     0 true wStore wTxn (by decide) (by decide),
   c9_fault_propagation_amended.2.2.2.2.2.2.1 "u1" "t1"
     { originalname := "p.pdf", mimetype := "application/pdf", size := 17 }
     0 wStore wTxn (by decide) (by decide),
   c9_fault_propagation_amended.2.2.2.2.2.2.2.1 "k" "https://app.example" "u1" "t1" "n0"
     0 DbWrite.ok wStore (by decide),
   c9_fault_propagation_amended.2.2.2.2.2.2.2.2.1 "k" "https://app.example" "u1" "t1" "n0"
     "down" 0 wStore wTxn (by decide) (by decide),
   c9_fault_propagation_amended.2.2.2.2.2.2.2.2.2.1 "k" "t1" "n0" 0 0
     (by norm_num [VALIDITY_MS]),
   c9_fault_propagation_amended.2.2.2.2.2.2.2.2.2.2 "k" 0 wStore⟩

/-- C9 counterexample: with the store unavailable, the read of GET /confirm
errors and the handler answers 400 Invalid token, not the 500 the claim
requires for infrastructure faults. -/
theorem c9_store_fault_not_500 :
    confirmDecide "k" (Presented.tok (mintToken "k" "t1" "n0" 0)) 0 (fun _ _ => DbSingle.err)
      = ConfirmDecision.reject 400 "Invalid token"
    ∧ (400 : Nat) ≠ 500 := by
  constructor
  · decide
  · decide
